import Mathlib

/-
  Shallow embedding of src/lib/color-analysis.ts (tone-palette-wizard).

  Modelling conventions:
  * JS numbers are modelled as rationals (ℚ); the code under verification
    performs only field arithmetic, comparisons and rounding, so ℚ is exact.
  * Strings are modelled as lists of characters (List Char) so that the
    slice/parseInt decoding used by analyzeSkinTone is directly expressible.
  * The single JS NaN that actually arises in this code is the 0/0 produced
    when averaging over an empty color list; it is modelled by Option ℚ
    (none = NaN), and the fact that every <=/>= comparison against NaN is
    false is modelled by the comparison helpers jge / jle below.
-/

/-- Value of a hexadecimal digit character, as accepted by JS parseInt with
radix 16 (digits, lowercase and uppercase letters); none for non-digits. -/
def hexDigitVal (c : Char) : Option ℕ :=
  if '0' ≤ c ∧ c ≤ '9' then some (c.toNat - 48)
  else if 'a' ≤ c ∧ c ≤ 'f' then some (c.toNat - 87)
  else if 'A' ≤ c ∧ c ≤ 'F' then some (c.toNat - 55)
  else none

/-- Accumulating loop of parseInt(s, 16): consume hex digits until the first
non-digit, as JS parseInt does. -/
def jsParseHexAux : List Char → ℕ → ℕ
  | [], acc => acc
  | c :: rest, acc =>
    match hexDigitVal c with
    | some v => jsParseHexAux rest (16 * acc + v)
    | none => acc

/-- Model of JS parseInt(s, 16) on the strings this code slices out of hex
colors: parse the maximal leading run of hex digits; none models the NaN
returned when the string starts with a non-digit (or is empty). -/
def jsParseHex : List Char → Option ℕ
  | [] => none
  | c :: rest =>
    match hexDigitVal c with
    | some v => some (jsParseHexAux rest v)
    | none => none

/-- Model of JS Number.prototype.toString(16) for a nonnegative integer:
base-16 digits, lowercase, "0" for 0 (Nat.toDigits 16 has exactly this
behaviour). -/
def natToHex (n : ℕ) : List Char := Nat.toDigits 16 n

/-- Model of JS toString(16) on an arbitrary integer: negative values are
rendered as a minus sign followed by the digits of the absolute value. -/
def intToHex (n : ℤ) : List Char :=
  if n < 0 then '-' :: natToHex n.natAbs else natToHex n.toNat

/-- Model of JS Math.round: round half toward positive infinity. -/
def jsRound (x : ℚ) : ℤ := ⌊x + 1 / 2⌋

/-- Left-pad of the per-channel hex string to two characters, exactly the
`hex.length === 1 ? "0" + hex : hex` step of rgbToHex. -/
def pad2 (s : List Char) : List Char :=
  if s.length = 1 then '0' :: s else s

/-- One channel of rgbToHex: Math.round(x).toString(16), padded to length 2
when a single digit came out. -/
def hexByte (x : ℚ) : List Char := pad2 (intToHex (jsRound x))

/-- Embedding of rgbToHex (color-analysis.ts lines 53-58): "#" followed by the
three channel renderings, in order. The source maps hexByte over [r, g, b]
and joins; the concatenation below is that join. -/
def rgbToHex (r g b : ℚ) : List Char :=
  '#' :: (hexByte r ++ hexByte g ++ hexByte b)

/-- Character class of the output digits of rgbToHex: lowercase hex digit. -/
def isLowerHexDigit (c : Char) : Bool :=
  ('0' ≤ c && c ≤ '9') || ('a' ≤ c && c ≤ 'f')

/-- Well-formed hex color string: exactly 7 characters, a leading '#', and
lowercase hex digits everywhere after it. -/
def wellFormedHex (s : List Char) : Prop :=
  s.length = 7 ∧ s.take 1 = ['#'] ∧ ∀ c ∈ s.drop 1, isLowerHexDigit c = true

instance (s : List Char) : Decidable (wellFormedHex s) := by
  unfold wellFormedHex; infer_instance

/-- Embedding of rgbToHsl (color-analysis.ts lines 26-50). The JS switch on
`max` tests `case r`, `case g`, `case b` in that order with === comparison;
that is the if-chain below. Returns (h, s, l) with h in degrees and s, l as
percentages. -/
def rgbToHsl (r g b : ℚ) : ℚ × ℚ × ℚ :=
  let r' := r / 255
  let g' := g / 255
  let b' := b / 255
  let mx := max r' (max g' b')
  let mn := min r' (min g' b')
  let l := (mx + mn) / 2
  if mx = mn then (0, 0, l * 100)
  else
    let d := mx - mn
    let s := if l > 1 / 2 then d / (2 - mx - mn) else d / (mx + mn)
    let h :=
      if mx = r' then (g' - b') / d + (if g' < b' then 6 else 0)
      else if mx = g' then (b' - r') / d + 2
      else (r' - g') / d + 4
    (h / 6 * 360, s * 100, l * 100)

/-- Undertone category returned by the classifier. -/
inductive SkinToneType
  | warm
  | cool
  | neutral
deriving DecidableEq, Repr

/-- One entry of the SKIN_TONE_SCALE table: display name, representative hex
swatch and the 1-10 level number. -/
structure SkinLevel where
  name : String
  hex : String
  number : ℕ
deriving DecidableEq, Repr

/-- Recommendation record produced by generateRecommendations. -/
structure Recommendations where
  clothing : List String
  makeup : List String
  lipColors : List String
  eyeshadow : List String
deriving DecidableEq, Repr

/-- Named outfit palette (a name plus five hex colors). -/
structure OutfitPalette where
  name : String
  colors : List String
deriving DecidableEq, Repr

/-- Result record of analyzeSkinTone (the SkinToneAnalysis interface). -/
structure SkinToneAnalysis where
  dominantColors : List (List Char)
  skinToneType : SkinToneType
  undertone : String
  skinToneLevel : SkinLevel
  outfitPalettes : List OutfitPalette
  outfitExamples : List String
  recommendations : Recommendations
deriving DecidableEq, Repr

/-- Embedding of the SKIN_TONE_SCALE constant (color-analysis.ts lines
131-142), lightest to darkest. -/
def SKIN_TONE_SCALE : List SkinLevel :=
  [ ⟨"Porcelain", "#f6ede4", 1⟩,
    ⟨"Ivory", "#f3e7db", 2⟩,
    ⟨"Light Beige", "#f7ead0", 3⟩,
    ⟨"Warm Beige", "#eadaba", 4⟩,
    ⟨"Golden Beige", "#d7bd96", 5⟩,
    ⟨"Tan", "#a07e56", 6⟩,
    ⟨"Medium Brown", "#825c43", 7⟩,
    ⟨"Deep Brown", "#604134", 8⟩,
    ⟨"Dark Espresso", "#3a312a", 9⟩,
    ⟨"Ebony", "#292421", 10⟩ ]

/-- Array access SKIN_TONE_SCALE[i] of the source; every index used by the
source is in range, so the default is never produced. -/
def scaleAt (i : ℕ) : SkinLevel := SKIN_TONE_SCALE.getD i ⟨"", "", 0⟩

/-- Embedding of generateRecommendations (color-analysis.ts lines 202-225):
pure table lookup on the undertone category. -/
def generateRecommendations : SkinToneType → Recommendations
  | .warm =>
    ⟨["#8B4513", "#CD853F", "#DEB887", "#F4A460", "#D2691E", "#FF8C00"],
     ["#CD853F", "#DEB887", "#F4A460", "#DDBF94"],
     ["#CD5C5C", "#E9967A", "#FA8072", "#FF6347"],
     ["#8B4513", "#CD853F", "#DEB887", "#D2691E"]⟩
  | .cool =>
    ⟨["#4682B4", "#6495ED", "#87CEEB", "#B0C4DE", "#778899", "#2F4F4F"],
     ["#F8F8FF", "#E6E6FA", "#D8BFD8", "#DDA0DD"],
     ["#DC143C", "#B22222", "#8B0000", "#FF1493"],
     ["#4682B4", "#6495ED", "#9370DB", "#8A2BE2"]⟩
  | .neutral =>
    ⟨["#696969", "#708090", "#778899", "#2F4F4F", "#556B2F", "#8B4513"],
     ["#F5F5DC", "#FFF8DC", "#FAEBD7", "#F0E68C"],
     ["#CD5C5C", "#BC8F8F", "#F08080", "#E9967A"],
     ["#CD853F", "#BC8F8F", "#D2B48C", "#DEB887"]⟩

/-- Base outfit-palette table of generateOutfitPalettes (lines 228-247). -/
def basePalettes : SkinToneType → List OutfitPalette
  | .warm =>
    [ ⟨"Earth Tones", ["#8B4513", "#D2691E", "#F4A460", "#DEB887", "#FFFFFF"]⟩,
      ⟨"Autumn Spice", ["#B22222", "#FF8C00", "#DAA520", "#CD853F", "#F5F5DC"]⟩,
      ⟨"Golden Hour", ["#FFD700", "#FF6347", "#CD853F", "#F4A460", "#FFFAF0"]⟩,
      ⟨"Desert Sunset", ["#FF4500", "#FF8C00", "#DEB887", "#F5DEB3", "#FFFFFF"]⟩ ]
  | .cool =>
    [ ⟨"Ocean Blues", ["#000080", "#4682B4", "#87CEEB", "#E0F6FF", "#FFFFFF"]⟩,
      ⟨"Berry Elegance", ["#8B008B", "#DC143C", "#FFB6C1", "#F8F8FF", "#000000"]⟩,
      ⟨"Winter Frost", ["#2F4F4F", "#708090", "#B0C4DE", "#F0F8FF", "#FFFFFF"]⟩,
      ⟨"Jewel Tones", ["#4B0082", "#008B8B", "#9370DB", "#E6E6FA", "#FFFFFF"]⟩ ]
  | .neutral =>
    [ ⟨"Classic Neutrals", ["#000000", "#696969", "#D3D3D3", "#F5F5F5", "#FFFFFF"]⟩,
      ⟨"Sage & Stone", ["#556B2F", "#808080", "#D2B48C", "#F5F5DC", "#FFFFFF"]⟩,
      ⟨"Modern Minimalist", ["#2F4F4F", "#778899", "#B0C4DE", "#F8F8FF", "#FFFFFF"]⟩,
      ⟨"Warm Greys", ["#8B4513", "#696969", "#BC8F8F", "#F5F5DC", "#FFFFFF"]⟩ ]

/-- Embedding of generateOutfitPalettes (color-analysis.ts lines 227-262):
for skinLevel >= 7 the warm and cool branches push one extra palette, and the
function then returns palettes.slice(0, 4). -/
def generateOutfitPalettes (skinToneType : SkinToneType) (skinLevel : ℕ) :
    List OutfitPalette :=
  let palettes := basePalettes skinToneType
  let palettes :=
    if 7 ≤ skinLevel then
      match skinToneType with
      | .warm => palettes ++
          [⟨"Rich Jewels", ["#800080", "#FF6347", "#DAA520", "#F4A460", "#FFFAF0"]⟩]
      | .cool => palettes ++
          [⟨"Royal Blues", ["#000080", "#8B008B", "#DC143C", "#FFB6C1", "#FFFFFF"]⟩]
      | .neutral => palettes
    else palettes
  palettes.take 4

/-- Base example-outfit table of generateOutfitExamples (lines 265-278). -/
def baseExamples : SkinToneType → List String
  | .warm =>
    [ "Terracotta blazer with cream trousers and gold accessories",
      "Olive green sweater with dark denim jeans and brown leather boots" ]
  | .cool =>
    [ "Navy blue blouse with grey tailored pants and silver jewelry",
      "Emerald green dress with black heels and pearl accessories" ]
  | .neutral =>
    [ "Charcoal grey suit with white shirt and black leather shoes",
      "Sage green cardigan with beige chinos and tan loafers" ]

/-- Embedding of generateOutfitExamples (color-analysis.ts lines 264-290):
for skinLevel >= 7 the warm and cool branches push one extra phrase, and the
function then returns examples[skinToneType].slice(0, 2). -/
def generateOutfitExamples (skinToneType : SkinToneType) (skinLevel : ℕ) :
    List String :=
  let examples := baseExamples skinToneType
  let examples :=
    if 7 ≤ skinLevel then
      match skinToneType with
      | .warm => examples ++
          ["Bold orange top with dark chocolate brown pants and gold statement jewelry"]
      | .cool => examples ++
          ["Rich purple blouse with black trousers and silver metallic accessories"]
      | .neutral => examples
    else examples
  examples.take 2

/-- JS comparison `c <= x` where x may be NaN (none): false on NaN. -/
def jge (x : Option ℚ) (c : ℚ) : Bool :=
  match x with
  | none => false
  | some v => c ≤ v

/-- JS comparison `x <= c` where x may be NaN (none): false on NaN. -/
def jle (x : Option ℚ) (c : ℚ) : Bool :=
  match x with
  | none => false
  | some v => v ≤ c

/-- Channel decoding analyzeSkinTone applies to each dominant color:
parseInt(hex.slice(1,3), 16) and likewise for slices (3,5) and (5,7). On the
well-formed colors all theorems below consider, the parse succeeds; getD 0
totalises the embedding (the JS original would propagate NaN instead). -/
def hexChannels (hex : List Char) : ℚ × ℚ × ℚ :=
  ( ((jsParseHex ((hex.drop 1).take 2)).getD 0 : ℕ),
    ((jsParseHex ((hex.drop 3).take 2)).getD 0 : ℕ),
    ((jsParseHex ((hex.drop 5).take 2)).getD 0 : ℕ) )

/-- Per-color HSL triples computed at the top of analyzeSkinTone (lines
146-151). -/
def colorHSLs (dominantColors : List (List Char)) : List (ℚ × ℚ × ℚ) :=
  dominantColors.map fun hex =>
    rgbToHsl (hexChannels hex).1 (hexChannels hex).2.1 (hexChannels hex).2.2

/-- Average lightness of analyzeSkinTone (line 154); none models the NaN that
reduce-sum / 0 produces on the empty list. -/
def avgLightnessJS (dominantColors : List (List Char)) : Option ℚ :=
  if dominantColors = [] then none
  else some (((colorHSLs dominantColors).map fun t => t.2.2).sum /
    (colorHSLs dominantColors).length)

/-- Average hue of analyzeSkinTone (line 170); none models NaN on empty. -/
def avgHueJS (dominantColors : List (List Char)) : Option ℚ :=
  if dominantColors = [] then none
  else some (((colorHSLs dominantColors).map fun t => t.1).sum /
    (colorHSLs dominantColors).length)

/-- Lightness-level selection of analyzeSkinTone (lines 156-167): top-down
first-match threshold chain over the possibly-NaN average lightness; on NaN
every comparison is false and the chain falls through to Ebony. -/
def toneLevelJS (avgLightness : Option ℚ) : SkinLevel :=
  if jge avgLightness 85 then scaleAt 0
  else if jge avgLightness 80 then scaleAt 1
  else if jge avgLightness 75 then scaleAt 2
  else if jge avgLightness 70 then scaleAt 3
  else if jge avgLightness 65 then scaleAt 4
  else if jge avgLightness 55 then scaleAt 5
  else if jge avgLightness 45 then scaleAt 6
  else if jge avgLightness 35 then scaleAt 7
  else if jge avgLightness 25 then scaleAt 8
  else scaleAt 9

/-- Undertone selection of analyzeSkinTone (lines 175-184): warm branch
checked first, then cool, else neutral; on NaN both guards are false and the
result is neutral. -/
def undertoneJS (avgHue : Option ℚ) : SkinToneType × String :=
  if jge avgHue 20 && jle avgHue 50 then (.warm, "Golden/Yellow")
  else if jge avgHue 300 || jle avgHue 20 then (.cool, "Pink/Red")
  else (.neutral, "Balanced")

/-- Embedding of analyzeSkinTone (color-analysis.ts lines 145-200). -/
def analyzeSkinTone (dominantColors : List (List Char)) : SkinToneAnalysis :=
  let skinToneLevel := toneLevelJS (avgLightnessJS dominantColors)
  let tu := undertoneJS (avgHueJS dominantColors)
  { dominantColors := dominantColors
    skinToneType := tu.1
    undertone := tu.2
    skinToneLevel := skinToneLevel
    outfitPalettes := generateOutfitPalettes tu.1 skinToneLevel.number
    outfitExamples := generateOutfitExamples tu.1 skinToneLevel.number
    recommendations := generateRecommendations tu.1 }

/-- Sampling loop of extractDominantColors (color-analysis.ts lines 62-76):
walk the RGBA byte stream with stride 16 (every 4th pixel), read the four
channels, and keep the pixel when alpha > 200 and every color channel is
strictly between 30 and 250. An index read past the end yields undefined in
JS and every comparison against undefined is false, so such a sample is
skipped; that is the in-bounds requirement of the match below. -/
def samplesOf (data : List ℕ) : List (ℕ × ℕ × ℕ) :=
  ((List.range data.length).filter fun i => i % 16 == 0).filterMap fun i =>
    match data.get? i, data.get? (i + 1), data.get? (i + 2), data.get? (i + 3) with
    | some r, some g, some b, some a =>
      if 200 < a ∧ 30 < r ∧ 30 < g ∧ 30 < b ∧ r < 250 ∧ g < 250 ∧ b < 250
      then some (r, g, b) else none
    | _, _, _, _ => none

/-- Squared Euclidean distance between a pixel and a centroid. The source
compares Math.sqrt of this quantity; square root is strictly monotone, so
comparing the squares decides exactly the same minimum. -/
def distSq (c : ℚ × ℚ × ℚ) (p : ℕ × ℕ × ℕ) : ℚ :=
  ((p.1 : ℚ) - c.1) ^ 2 + ((p.2.1 : ℚ) - c.2.1) ^ 2 + ((p.2.2 : ℚ) - c.2.2) ^ 2

/-- Closest-centroid scan of extractDominantColors (lines 96-111): fold over
the centroids keeping (minDistance, closestCluster), starting from
(Infinity, 0); none models the initial Infinity, and a strictly smaller
distance replaces the pair, so ties keep the earliest index. -/
def closestCluster (cents : List (ℚ × ℚ × ℚ)) (p : ℕ × ℕ × ℕ) : ℕ :=
  (cents.enum.foldl
    (fun acc ic =>
      match acc.1 with
      | none => (some (distSq ic.2 p), ic.1)
      | some m => if distSq ic.2 p < m then (some (distSq ic.2 p), ic.1) else acc)
    ((none : Option ℚ), 0)).2

/-- Centroid update of one cluster (lines 117-124): the pixels assigned to
cluster index j, in input order; if none, the centroid keeps its previous
value, otherwise it becomes the per-channel arithmetic mean. -/
def updateCentroid (pixels : List (ℕ × ℕ × ℕ)) (cents : List (ℚ × ℚ × ℚ))
    (j : ℕ) (c : ℚ × ℚ × ℚ) : ℚ × ℚ × ℚ :=
  let cluster := pixels.filter fun p => closestCluster cents p == j
  if cluster.isEmpty then c
  else
    ( (cluster.map fun p => (p.1 : ℚ)).sum / cluster.length,
      (cluster.map fun p => (p.2.1 : ℚ)).sum / cluster.length,
      (cluster.map fun p => (p.2.2 : ℚ)).sum / cluster.length )

/-- One k-means round (lines 92-125): assign every pixel to its closest
centroid, then recompute every centroid from its cluster. -/
def kmeansStep (pixels : List (ℕ × ℕ × ℕ)) (cents : List (ℚ × ℚ × ℚ)) :
    List (ℚ × ℚ × ℚ) :=
  cents.enum.map fun ic => updateCentroid pixels cents ic.1 ic.2

/-- Random centroid initialization (lines 86-89): k pixels chosen from the
filtered sample list. The uncontrolled Math.random() draw is abstracted as
the function pick; reducing it modulo the list length covers exactly the
indices Math.floor(Math.random() * pixels.length) can produce. The default
of getD is never read when the pixel list is non-empty. -/
def initCentroids (pixels : List (ℕ × ℕ × ℕ)) (k : ℕ) (pick : ℕ → ℕ) :
    List (ℚ × ℚ × ℚ) :=
  (List.range k).map fun i =>
    let p := pixels.getD (pick i % pixels.length) (0, 0, 0)
    ((p.1 : ℚ), (p.2.1 : ℚ), (p.2.2 : ℚ))

/-- Embedding of extractDominantColors (color-analysis.ts lines 61-128):
sample and filter the buffer, return [] when nothing survives, otherwise run
exactly 10 k-means rounds from the randomly initialized centroids and render
every final centroid through rgbToHex. -/
def extractDominantColors (data : List ℕ) (k : ℕ) (pick : ℕ → ℕ) :
    List (List Char) :=
  let pixels := samplesOf data
  if pixels.isEmpty then []
  else
    ((kmeansStep pixels)^[10] (initCentroids pixels k pick)).map fun c =>
      rgbToHex c.1 c.2.1 c.2.2

/-
  Spec-side definitions, written from the words of the specification, to be
  compared with the source embedding above.
-/

/-- Specification wording of the undertone rule: if 20 <= avgHue <= 50 then
warm ("Golden/Yellow"); else if avgHue >= 300 or avgHue <= 20 then cool
("Pink/Red"); else neutral ("Balanced"); warm checked before cool. -/
def undertoneSpec (h : ℚ) : SkinToneType × String :=
  if 20 ≤ h ∧ h ≤ 50 then (.warm, "Golden/Yellow")
  else if 300 ≤ h ∨ h ≤ 20 then (.cool, "Pink/Red")
  else (.neutral, "Balanced")

/-- Specification wording of the 10-bucket lightness table, evaluated
top-down, first match wins, with the names of section 4.3 and the
representative swatches of section 6 of the spec. -/
def levelSpec (l : ℚ) : SkinLevel :=
  if 85 ≤ l then ⟨"Porcelain", "#f6ede4", 1⟩
  else if 80 ≤ l then ⟨"Ivory", "#f3e7db", 2⟩
  else if 75 ≤ l then ⟨"Light Beige", "#f7ead0", 3⟩
  else if 70 ≤ l then ⟨"Warm Beige", "#eadaba", 4⟩
  else if 65 ≤ l then ⟨"Golden Beige", "#d7bd96", 5⟩
  else if 55 ≤ l then ⟨"Tan", "#a07e56", 6⟩
  else if 45 ≤ l then ⟨"Medium Brown", "#825c43", 7⟩
  else if 35 ≤ l then ⟨"Deep Brown", "#604134", 8⟩
  else if 25 ≤ l then ⟨"Dark Espresso", "#3a312a", 9⟩
  else ⟨"Ebony", "#292421", 10⟩

/-- Arithmetic mean of the hues of a color list, as a rational. -/
def avgHueQ (dominantColors : List (List Char)) : ℚ :=
  ((colorHSLs dominantColors).map fun t => t.1).sum /
    (colorHSLs dominantColors).length

/-- Arithmetic mean of the lightness values of a color list, as a rational. -/
def avgLightnessQ (dominantColors : List (List Char)) : ℚ :=
  ((colorHSLs dominantColors).map fun t => t.2.2).sum /
    (colorHSLs dominantColors).length

/-- Claim C1 (counterexample): invoked on the empty dominant-color list,
analyzeSkinTone does not fail at all; it returns an ordinary ToneProfile
record, here seen to carry the neutral undertone label. This refutes the
claim that the classifier fails with EmptyInputError on empty input. -/
theorem C1_returns_profile_on_empty :
    (analyzeSkinTone []).undertone = "Balanced" := by
  rfl

/-- Claim C1 (amended): analyzeSkinTone has no failure mode; on the empty
list the averages are NaN, every threshold comparison on NaN is false, and
the function returns a profile with neutral undertone and lightness level 10
(Ebony). -/
theorem C1_empty_input_amended :
    (analyzeSkinTone []).skinToneType = SkinToneType.neutral ∧
    (analyzeSkinTone []).skinToneLevel.number = 10 ∧
    (analyzeSkinTone []).skinToneLevel.name = "Ebony" ∧
    (analyzeSkinTone []).dominantColors = [] := by
  exact ⟨rfl, rfl, rfl, rfl⟩

/-- Claim C2 (code bug, evaluated at the failing input): at lightness level 7
the warm recommendation lists are identical to those at level 6 — the extra
palette and phrase pushed for level >= 7 are discarded by the trailing
slice(0, 4) and slice(0, 2), which keep only the 4 base palettes and 2 base
phrases. The same holds for cool, and for neutral nothing is pushed at all. -/
theorem C2_level_does_not_change_recommendations :
    generateOutfitPalettes SkinToneType.warm 7 =
      generateOutfitPalettes SkinToneType.warm 6 ∧
    (generateOutfitPalettes SkinToneType.warm 7).length = 4 ∧
    generateOutfitExamples SkinToneType.warm 7 =
      generateOutfitExamples SkinToneType.warm 6 ∧
    (generateOutfitExamples SkinToneType.warm 7).length = 2 ∧
    generateOutfitPalettes SkinToneType.cool 7 =
      generateOutfitPalettes SkinToneType.cool 6 ∧
    generateOutfitExamples SkinToneType.cool 7 =
      generateOutfitExamples SkinToneType.cool 6 ∧
    generateOutfitPalettes SkinToneType.neutral 7 =
      generateOutfitPalettes SkinToneType.neutral 6 ∧
    generateOutfitExamples SkinToneType.neutral 7 =
      generateOutfitExamples SkinToneType.neutral 6 := by
  exact ⟨rfl, rfl, rfl, rfl, rfl, rfl, rfl, rfl⟩

/-- Rounding an integer-valued rational changes nothing. -/
lemma jsRound_natCast (n : ℕ) : jsRound (n : ℚ) = n := by
  unfold jsRound
  rw [add_comm, Int.floor_add_nat]
  norm_num

/-- On nonnegative integer channels the channel renderer is the padded
base-16 digit string. -/
lemma hexByte_natCast (n : ℕ) : hexByte (n : ℚ) = pad2 (natToHex n) := by
  unfold hexByte intToHex
  rw [jsRound_natCast]
  simp [show ¬((n : ℤ) < 0) by omega]

set_option maxRecDepth 40000

/-- Two base-16 digits, padded, always come out for a byte value. -/
lemma pad2_natToHex_length : ∀ n : ℕ, n < 256 → (pad2 (natToHex n)).length = 2 := by
  decide

/-- Parsing the padded two-digit rendering of a byte recovers the byte. -/
lemma pad2_natToHex_parse : ∀ n : ℕ, n < 256 →
    jsParseHex (pad2 (natToHex n)) = some n := by
  decide

/-- The padded two-digit rendering of a byte uses lowercase hex digits. -/
lemma pad2_natToHex_lowhex : ∀ n : ℕ, n < 256 →
    (pad2 (natToHex n)).all isLowerHexDigit = true := by
  decide

/-- Slicing a '#'-prefixed concatenation of three two-character chunks at
positions (1,3), (3,5), (5,7) recovers the three chunks. -/
lemma slice_triple (A B C : List Char) (hA : A.length = 2) (hB : B.length = 2)
    (hC : C.length = 2) :
    ((('#' :: (A ++ B ++ C)).drop 1).take 2 = A ∧
     (('#' :: (A ++ B ++ C)).drop 3).take 2 = B ∧
     (('#' :: (A ++ B ++ C)).drop 5).take 2 = C) := by
  obtain ⟨a1, a2, rfl⟩ := List.length_eq_two.mp hA
  obtain ⟨b1, b2, rfl⟩ := List.length_eq_two.mp hB
  obtain ⟨c1, c2, rfl⟩ := List.length_eq_two.mp hC
  exact ⟨rfl, rfl, rfl⟩

/-- Claim C3: for every integer triple with channels in [0,255], the
slice/parseInt decoding that analyzeSkinTone applies to a dominant color
recovers from rgbToHex(r,g,b) exactly the original channels, both at the
level of the raw parses (no NaN, exact values) and at the level of the
hexChannels helper. -/
theorem C3_hex_roundtrip (r g b : ℕ) (hr : r ≤ 255) (hg : g ≤ 255)
    (hb : b ≤ 255) :
    jsParseHex (((rgbToHex r g b).drop 1).take 2) = some r ∧
    jsParseHex (((rgbToHex r g b).drop 3).take 2) = some g ∧
    jsParseHex (((rgbToHex r g b).drop 5).take 2) = some b ∧
    hexChannels (rgbToHex r g b) = ((r : ℚ), (g : ℚ), (b : ℚ)) := by
  have hr2 : r < 256 := by omega
  have hg2 : g < 256 := by omega
  have hb2 : b < 256 := by omega
  have eA := hexByte_natCast r
  have eB := hexByte_natCast g
  have eC := hexByte_natCast b
  have hA := pad2_natToHex_length r hr2
  have hB := pad2_natToHex_length g hg2
  have hC := pad2_natToHex_length b hb2
  have hs := slice_triple (pad2 (natToHex r)) (pad2 (natToHex g))
    (pad2 (natToHex b)) hA hB hC
  have h1 : ((rgbToHex r g b).drop 1).take 2 = pad2 (natToHex r) := by
    unfold rgbToHex; rw [eA, eB, eC]; exact hs.1
  have h2 : ((rgbToHex r g b).drop 3).take 2 = pad2 (natToHex g) := by
    unfold rgbToHex; rw [eA, eB, eC]; exact hs.2.1
  have h3 : ((rgbToHex r g b).drop 5).take 2 = pad2 (natToHex b) := by
    unfold rgbToHex; rw [eA, eB, eC]; exact hs.2.2
  refine ⟨?_, ?_, ?_, ?_⟩
  · rw [h1]; exact pad2_natToHex_parse r hr2
  · rw [h2]; exact pad2_natToHex_parse g hg2
  · rw [h3]; exact pad2_natToHex_parse b hb2
  · unfold hexChannels
    rw [h1, h2, h3, pad2_natToHex_parse r hr2, pad2_natToHex_parse g hg2,
      pad2_natToHex_parse b hb2]
    simp

/-- Claim C3 witness at the concrete triple (0, 128, 255). -/
theorem C3_hex_roundtrip_witness :
    (0 : ℕ) ≤ 255 ∧ (128 : ℕ) ≤ 255 ∧ (255 : ℕ) ≤ 255 ∧
    hexChannels (rgbToHex 0 128 255) = ((0 : ℚ), (128 : ℚ), (255 : ℚ)) :=
  ⟨by decide, by decide, by decide,
    by
      have h := (C3_hex_roundtrip 0 128 255 (by decide) (by decide)
        (by decide)).2.2.2
      simpa using h⟩

/-- Byte-range rounded channels render as exactly two lowercase hex digits. -/
lemma hexByte_bounds (x : ℚ) (h0 : 0 ≤ jsRound x) (h1 : jsRound x ≤ 255) :
    (hexByte x).length = 2 ∧ (hexByte x).all isLowerHexDigit = true := by
  have hx : hexByte x = pad2 (natToHex (jsRound x).toNat) := by
    unfold hexByte intToHex
    simp [show ¬(jsRound x < 0) by omega]
  have hlt : (jsRound x).toNat < 256 := by omega
  rw [hx]
  exact ⟨pad2_natToHex_length _ hlt, pad2_natToHex_lowhex _ hlt⟩

/-- Claim C7 (counterexample): rgbToHex does not clamp. At (300, 0, 0) the
first channel renders as the three-digit "12c", producing the malformed
8-character string "#12c0000" instead of a 7-character clamped "#ff0000". -/
theorem C7_no_clamp_counterexample :
    rgbToHex 300 0 0 = ['#', '1', '2', 'c', '0', '0', '0', '0'] ∧
    (rgbToHex 300 0 0).length ≠ 7 := by
  have h300 : hexByte 300 = pad2 (natToHex 300) := by
    rw [show (300 : ℚ) = ((300 : ℕ) : ℚ) by norm_num, hexByte_natCast]
  have h0 : hexByte 0 = pad2 (natToHex 0) := by
    rw [show (0 : ℚ) = ((0 : ℕ) : ℚ) by norm_num, hexByte_natCast]
  have hlist : rgbToHex 300 0 0 = ['#', '1', '2', 'c', '0', '0', '0', '0'] := by
    rw [rgbToHex, h300, h0]
    decide
  refine ⟨hlist, ?_⟩
  rw [hlist]
  decide

/-- Whenever every rounded channel lies in [0, 255], rgbToHex produces '#'
followed by two lowercase hex digits per channel. -/
lemma rgbToHex_wellFormed (r g b : ℚ)
    (hr0 : 0 ≤ jsRound r) (hr1 : jsRound r ≤ 255)
    (hg0 : 0 ≤ jsRound g) (hg1 : jsRound g ≤ 255)
    (hb0 : 0 ≤ jsRound b) (hb1 : jsRound b ≤ 255) :
    wellFormedHex (rgbToHex r g b) := by
  obtain ⟨lA, aA⟩ := hexByte_bounds r hr0 hr1
  obtain ⟨lB, aB⟩ := hexByte_bounds g hg0 hg1
  obtain ⟨lC, aC⟩ := hexByte_bounds b hb0 hb1
  unfold wellFormedHex rgbToHex
  refine ⟨?_, ?_, ?_⟩
  · simp [lA, lB, lC]
  · rfl
  · intro c hc
    simp only [List.drop_succ_cons, List.drop_zero, List.mem_append] at hc
    rcases hc with (hc | hc) | hc
    · exact List.all_eq_true.mp aA c hc
    · exact List.all_eq_true.mp aB c hc
    · exact List.all_eq_true.mp aC c hc

/-- Claim C7 (amended): rgbToHex rounds each channel to the nearest integer
but performs no clamping; whenever every rounded channel already lies in
[0, 255] the result is a well-formed 7-character string, '#' followed by two
lowercase hex digits per channel. -/
theorem C7_wellformed_amended (r g b : ℚ)
    (hr0 : 0 ≤ jsRound r) (hr1 : jsRound r ≤ 255)
    (hg0 : 0 ≤ jsRound g) (hg1 : jsRound g ≤ 255)
    (hb0 : 0 ≤ jsRound b) (hb1 : jsRound b ≤ 255) :
    wellFormedHex (rgbToHex r g b) :=
  rgbToHex_wellFormed r g b hr0 hr1 hg0 hg1 hb0 hb1

/-- Claim C7 witness at (0.4, 128, 254.6): the rounded channels 0, 128, 255
are in range and the rendered string is well-formed. -/
theorem C7_wellformed_amended_witness :
    (0 ≤ jsRound 0.4 ∧ jsRound 0.4 ≤ 255 ∧
     0 ≤ jsRound 128 ∧ jsRound 128 ≤ 255 ∧
     0 ≤ jsRound 254.6 ∧ jsRound 254.6 ≤ 255) ∧
    wellFormedHex (rgbToHex 0.4 128 254.6) :=
  ⟨⟨by norm_num [jsRound], by norm_num [jsRound], by norm_num [jsRound],
     by norm_num [jsRound], by norm_num [jsRound], by norm_num [jsRound]⟩,
    C7_wellformed_amended 0.4 128 254.6 (by norm_num [jsRound])
      (by norm_num [jsRound]) (by norm_num [jsRound]) (by norm_num [jsRound])
      (by norm_num [jsRound]) (by norm_num [jsRound])⟩

/-- On a real (non-NaN) average hue the source undertone chain computes the
piecewise rule stated by the spec. -/
lemma undertoneJS_some (x : ℚ) : undertoneJS (some x) = undertoneSpec x := by
  unfold undertoneJS undertoneSpec jge jle
  by_cases h1 : 20 ≤ x
  · by_cases h2 : x ≤ 50
    · simp [h1, h2]
    · by_cases h3 : 300 ≤ x
      · simp [h1, h2, h3]
      · have h4 : ¬(x ≤ 20) := by
          have : 50 < x := not_le.mp h2
          linarith
        simp [h1, h2, h3, h4]
  · have h2 : x ≤ 20 := le_of_lt (not_le.mp h1)
    simp [h1, h2]

/-- Non-empty color lists give a real (non-NaN) average hue. -/
lemma avgHueJS_some (colors : List (List Char)) (h : colors ≠ []) :
    avgHueJS colors = some (avgHueQ colors) := by
  unfold avgHueJS avgHueQ
  simp [h]

/-- Non-empty color lists give a real (non-NaN) average lightness. -/
lemma avgLightnessJS_some (colors : List (List Char)) (h : colors ≠ []) :
    avgLightnessJS colors = some (avgLightnessQ colors) := by
  unfold avgLightnessJS avgLightnessQ
  simp [h]

/-- Claim C4: for every non-empty color list the undertone classification of
analyzeSkinTone is exactly the spec's piecewise rule on the arithmetic mean
hue — warm 'Golden/Yellow' when 20 <= avgHue <= 50 (the warm branch being
checked first, so avgHue = 20 is warm), else cool 'Pink/Red' when
avgHue >= 300 or avgHue <= 20, else neutral 'Balanced'. -/
theorem C4_undertone_rule (colors : List (List Char)) (h : colors ≠ []) :
    ((analyzeSkinTone colors).skinToneType, (analyzeSkinTone colors).undertone) =
      undertoneSpec (avgHueQ colors) := by
  simp only [analyzeSkinTone, avgHueJS_some colors h, undertoneJS_some]

/-- Claim C4 witness at the one-color list ["#c89678"]. -/
theorem C4_undertone_rule_witness :
    ([['#', 'c', '8', '9', '6', '7', '8']] : List (List Char)) ≠ [] ∧
    ((analyzeSkinTone [['#', 'c', '8', '9', '6', '7', '8']]).skinToneType,
     (analyzeSkinTone [['#', 'c', '8', '9', '6', '7', '8']]).undertone) =
      undertoneSpec (avgHueQ [['#', 'c', '8', '9', '6', '7', '8']]) :=
  ⟨by decide, C4_undertone_rule [['#', 'c', '8', '9', '6', '7', '8']] (by decide)⟩

/-- On a real (non-NaN) average lightness the source threshold chain computes
the spec's 10-bucket table. -/
lemma toneLevelJS_some (x : ℚ) : toneLevelJS (some x) = levelSpec x := by
  have e0 : scaleAt 0 = ⟨"Porcelain", "#f6ede4", 1⟩ := rfl
  have e1 : scaleAt 1 = ⟨"Ivory", "#f3e7db", 2⟩ := rfl
  have e2 : scaleAt 2 = ⟨"Light Beige", "#f7ead0", 3⟩ := rfl
  have e3 : scaleAt 3 = ⟨"Warm Beige", "#eadaba", 4⟩ := rfl
  have e4 : scaleAt 4 = ⟨"Golden Beige", "#d7bd96", 5⟩ := rfl
  have e5 : scaleAt 5 = ⟨"Tan", "#a07e56", 6⟩ := rfl
  have e6 : scaleAt 6 = ⟨"Medium Brown", "#825c43", 7⟩ := rfl
  have e7 : scaleAt 7 = ⟨"Deep Brown", "#604134", 8⟩ := rfl
  have e8 : scaleAt 8 = ⟨"Dark Espresso", "#3a312a", 9⟩ := rfl
  have e9 : scaleAt 9 = ⟨"Ebony", "#292421", 10⟩ := rfl
  unfold toneLevelJS levelSpec jge
  rw [e0, e1, e2, e3, e4, e5, e6, e7, e8, e9]
  simp only [decide_eq_true_eq]

/-- Level numbers of the spec table lie between 1 and 10. -/
lemma levelSpec_num_bounds (x : ℚ) :
    1 ≤ (levelSpec x).number ∧ (levelSpec x).number ≤ 10 := by
  unfold levelSpec
  split_ifs <;> exact ⟨by norm_num, by norm_num⟩

/-- Bucket characterization: level at most 1 means lightness at least 85. -/
lemma lvl_le1 (x : ℚ) : (levelSpec x).number ≤ 1 ↔ 85 ≤ x := by
  unfold levelSpec
  split_ifs <;> norm_num <;> linarith

/-- Bucket characterization: level at most 2 means lightness at least 80. -/
lemma lvl_le2 (x : ℚ) : (levelSpec x).number ≤ 2 ↔ 80 ≤ x := by
  unfold levelSpec
  split_ifs <;> norm_num <;> linarith

/-- Bucket characterization: level at most 3 means lightness at least 75. -/
lemma lvl_le3 (x : ℚ) : (levelSpec x).number ≤ 3 ↔ 75 ≤ x := by
  unfold levelSpec
  split_ifs <;> norm_num <;> linarith

/-- Bucket characterization: level at most 4 means lightness at least 70. -/
lemma lvl_le4 (x : ℚ) : (levelSpec x).number ≤ 4 ↔ 70 ≤ x := by
  unfold levelSpec
  split_ifs <;> norm_num <;> linarith

/-- Bucket characterization: level at most 5 means lightness at least 65. -/
lemma lvl_le5 (x : ℚ) : (levelSpec x).number ≤ 5 ↔ 65 ≤ x := by
  unfold levelSpec
  split_ifs <;> norm_num <;> linarith

/-- Bucket characterization: level at most 6 means lightness at least 55. -/
lemma lvl_le6 (x : ℚ) : (levelSpec x).number ≤ 6 ↔ 55 ≤ x := by
  unfold levelSpec
  split_ifs <;> norm_num <;> linarith

/-- Bucket characterization: level at most 7 means lightness at least 45. -/
lemma lvl_le7 (x : ℚ) : (levelSpec x).number ≤ 7 ↔ 45 ≤ x := by
  unfold levelSpec
  split_ifs <;> norm_num <;> linarith

/-- Bucket characterization: level at most 8 means lightness at least 35. -/
lemma lvl_le8 (x : ℚ) : (levelSpec x).number ≤ 8 ↔ 35 ≤ x := by
  unfold levelSpec
  split_ifs <;> norm_num <;> linarith

/-- Bucket characterization: level at most 9 means lightness at least 25. -/
lemma lvl_le9 (x : ℚ) : (levelSpec x).number ≤ 9 ↔ 25 ≤ x := by
  unfold levelSpec
  split_ifs <;> norm_num <;> linarith

/-- The spec's level table is antitone: a larger average lightness never
gets a larger level number. -/
lemma levelSpec_antitone (x y : ℚ) (hxy : x ≤ y) :
    (levelSpec y).number ≤ (levelSpec x).number := by
  obtain ⟨hx1, _⟩ := levelSpec_num_bounds x
  obtain ⟨_, hy10⟩ := levelSpec_num_bounds y
  by_contra hlt
  push_neg at hlt
  have i1 : (levelSpec x).number ≤ 1 → (levelSpec y).number ≤ 1 :=
    fun h => (lvl_le1 y).mpr (le_trans ((lvl_le1 x).mp h) hxy)
  have i2 : (levelSpec x).number ≤ 2 → (levelSpec y).number ≤ 2 :=
    fun h => (lvl_le2 y).mpr (le_trans ((lvl_le2 x).mp h) hxy)
  have i3 : (levelSpec x).number ≤ 3 → (levelSpec y).number ≤ 3 :=
    fun h => (lvl_le3 y).mpr (le_trans ((lvl_le3 x).mp h) hxy)
  have i4 : (levelSpec x).number ≤ 4 → (levelSpec y).number ≤ 4 :=
    fun h => (lvl_le4 y).mpr (le_trans ((lvl_le4 x).mp h) hxy)
  have i5 : (levelSpec x).number ≤ 5 → (levelSpec y).number ≤ 5 :=
    fun h => (lvl_le5 y).mpr (le_trans ((lvl_le5 x).mp h) hxy)
  have i6 : (levelSpec x).number ≤ 6 → (levelSpec y).number ≤ 6 :=
    fun h => (lvl_le6 y).mpr (le_trans ((lvl_le6 x).mp h) hxy)
  have i7 : (levelSpec x).number ≤ 7 → (levelSpec y).number ≤ 7 :=
    fun h => (lvl_le7 y).mpr (le_trans ((lvl_le7 x).mp h) hxy)
  have i8 : (levelSpec x).number ≤ 8 → (levelSpec y).number ≤ 8 :=
    fun h => (lvl_le8 y).mpr (le_trans ((lvl_le8 x).mp h) hxy)
  have i9 : (levelSpec x).number ≤ 9 → (levelSpec y).number ≤ 9 :=
    fun h => (lvl_le9 y).mpr (le_trans ((lvl_le9 x).mp h) hxy)
  have c9 : (levelSpec y).number ≤ 9 := i9 (by omega)
  have c8 : (levelSpec y).number ≤ 8 := i8 (by omega)
  have c7 : (levelSpec y).number ≤ 7 := i7 (by omega)
  have c6 : (levelSpec y).number ≤ 6 := i6 (by omega)
  have c5 : (levelSpec y).number ≤ 5 := i5 (by omega)
  have c4 : (levelSpec y).number ≤ 4 := i4 (by omega)
  have c3 : (levelSpec y).number ≤ 3 := i3 (by omega)
  have c2 : (levelSpec y).number ≤ 2 := i2 (by omega)
  have c1 : (levelSpec y).number ≤ 1 := i1 (by omega)
  omega

/-- Claim C5: for every non-empty color list analyzeSkinTone assigns the
lightness level given by the spec's top-down first-match 10-bucket table on
the average lightness, and consequently a list with the larger average
lightness never receives a numerically larger (darker) level. -/
theorem C5_lightness_levels (c1 c2 : List (List Char)) (h1 : c1 ≠ [])
    (h2 : c2 ≠ []) :
    (analyzeSkinTone c1).skinToneLevel = levelSpec (avgLightnessQ c1) ∧
    (avgLightnessQ c2 ≤ avgLightnessQ c1 →
      (analyzeSkinTone c1).skinToneLevel.number ≤
        (analyzeSkinTone c2).skinToneLevel.number) := by
  have t1 : (analyzeSkinTone c1).skinToneLevel = levelSpec (avgLightnessQ c1) := by
    simp only [analyzeSkinTone, avgLightnessJS_some c1 h1, toneLevelJS_some]
  have t2 : (analyzeSkinTone c2).skinToneLevel = levelSpec (avgLightnessQ c2) := by
    simp only [analyzeSkinTone, avgLightnessJS_some c2 h2, toneLevelJS_some]
  refine ⟨t1, fun hle => ?_⟩
  rw [t1, t2]
  exact levelSpec_antitone _ _ hle

/-- Claim C5 witness at the one-color list ["#a07e56"], compared with
itself. -/
theorem C5_lightness_levels_witness :
    ([['#', 'a', '0', '7', 'e', '5', '6']] : List (List Char)) ≠ [] ∧
    ((analyzeSkinTone [['#', 'a', '0', '7', 'e', '5', '6']]).skinToneLevel =
        levelSpec (avgLightnessQ [['#', 'a', '0', '7', 'e', '5', '6']]) ∧
      (avgLightnessQ [['#', 'a', '0', '7', 'e', '5', '6']] ≤
          avgLightnessQ [['#', 'a', '0', '7', 'e', '5', '6']] →
        (analyzeSkinTone [['#', 'a', '0', '7', 'e', '5', '6']]).skinToneLevel.number ≤
          (analyzeSkinTone [['#', 'a', '0', '7', 'e', '5', '6']]).skinToneLevel.number)) :=
  ⟨by decide,
    C5_lightness_levels [['#', 'a', '0', '7', 'e', '5', '6']]
      [['#', 'a', '0', '7', 'e', '5', '6']] (by decide) (by decide)⟩


/-- Permuting the colors does not change the average hue: the sum and the
length of the mapped hue list are permutation invariants. -/
lemma avgHueJS_perm (c1 c2 : List (List Char)) (hp : c1.Perm c2) :
    avgHueJS c1 = avgHueJS c2 := by
  unfold avgHueJS
  by_cases h : c1 = []
  · have h2 : c2 = [] := by
      subst h
      exact hp.symm.eq_nil
    simp [h, h2]
  · have h2 : c2 ≠ [] := by
      intro he
      subst he
      exact h hp.eq_nil
    rw [if_neg h, if_neg h2]
    have hs : ((colorHSLs c1).map fun t => t.1).sum =
        ((colorHSLs c2).map fun t => t.1).sum := ((hp.map _).map _).sum_eq
    have hl : (colorHSLs c1).length = (colorHSLs c2).length := (hp.map _).length_eq
    rw [hs, hl]

/-- Permuting the colors does not change the average lightness. -/
lemma avgLightnessJS_perm (c1 c2 : List (List Char)) (hp : c1.Perm c2) :
    avgLightnessJS c1 = avgLightnessJS c2 := by
  unfold avgLightnessJS
  by_cases h : c1 = []
  · have h2 : c2 = [] := by
      subst h
      exact hp.symm.eq_nil
    simp [h, h2]
  · have h2 : c2 ≠ [] := by
      intro he
      subst he
      exact h hp.eq_nil
    rw [if_neg h, if_neg h2]
    have hs : ((colorHSLs c1).map fun t => t.2.2).sum =
        ((colorHSLs c2).map fun t => t.2.2).sum := ((hp.map _).map _).sum_eq
    have hl : (colorHSLs c1).length = (colorHSLs c2).length := (hp.map _).length_eq
    rw [hs, hl]

/-- Claim C10: for every non-empty color list and every permutation of it,
analyzeSkinTone produces the same skin tone type, undertone, level and
recommendation content (they depend only on the permutation-invariant
averages); only the echoed dominantColors field preserves the input order. -/
theorem C10_perm_invariant (c1 c2 : List (List Char)) (hp : c1.Perm c2)
    (h : c1 ≠ []) :
    (analyzeSkinTone c1).skinToneType = (analyzeSkinTone c2).skinToneType ∧
    (analyzeSkinTone c1).undertone = (analyzeSkinTone c2).undertone ∧
    (analyzeSkinTone c1).skinToneLevel = (analyzeSkinTone c2).skinToneLevel ∧
    (analyzeSkinTone c1).recommendations = (analyzeSkinTone c2).recommendations ∧
    (analyzeSkinTone c1).outfitPalettes = (analyzeSkinTone c2).outfitPalettes ∧
    (analyzeSkinTone c1).outfitExamples = (analyzeSkinTone c2).outfitExamples := by
  simp only [analyzeSkinTone, avgHueJS_perm c1 c2 hp, avgLightnessJS_perm c1 c2 hp]
  exact ⟨trivial, trivial, trivial, trivial, trivial, trivial⟩

/-- Claim C10 witness: the two-color list ["#c89678", "#f6ede4"] against its
reversal. -/
theorem C10_perm_invariant_witness :
    (([['#', 'c', '8', '9', '6', '7', '8'], ['#', 'f', '6', 'e', 'd', 'e', '4']] :
        List (List Char)).Perm
      [['#', 'f', '6', 'e', 'd', 'e', '4'], ['#', 'c', '8', '9', '6', '7', '8']] ∧
     ([['#', 'c', '8', '9', '6', '7', '8'], ['#', 'f', '6', 'e', 'd', 'e', '4']] :
        List (List Char)) ≠ []) ∧
    (analyzeSkinTone [['#', 'c', '8', '9', '6', '7', '8'],
        ['#', 'f', '6', 'e', 'd', 'e', '4']]).skinToneType =
      (analyzeSkinTone [['#', 'f', '6', 'e', 'd', 'e', '4'],
        ['#', 'c', '8', '9', '6', '7', '8']]).skinToneType :=
  ⟨⟨List.Perm.swap _ _ _, by decide⟩,
    (C10_perm_invariant _ _ (List.Perm.swap _ _ _) (by decide)).1⟩

/-- One k-means round keeps the number of centroids. -/
lemma kmeansStep_length (pixels : List (ℕ × ℕ × ℕ)) (cents : List (ℚ × ℚ × ℚ)) :
    (kmeansStep pixels cents).length = cents.length := by
  simp [kmeansStep]

/-- Any number of k-means rounds keeps the number of centroids. -/
lemma kmeansIter_length (pixels : List (ℕ × ℕ × ℕ)) (n : ℕ) :
    ∀ cents : List (ℚ × ℚ × ℚ),
      ((kmeansStep pixels)^[n] cents).length = cents.length := by
  induction n with
  | zero => intro cents; rfl
  | succ n ih =>
    intro cents
    rw [Function.iterate_succ_apply, ih (kmeansStep pixels cents),
      kmeansStep_length]

/-- Initialization produces exactly k centroids. -/
lemma initCentroids_length (pixels : List (ℕ × ℕ × ℕ)) (k : ℕ) (pick : ℕ → ℕ) :
    (initCentroids pixels k pick).length = k := by
  simp [initCentroids]

/-- Claim C6: for every RGBA buffer and every k >= 1, extractDominantColors
returns the empty list exactly when no sampled pixel passes the filter, and
otherwise returns exactly k color strings, whatever the random draws and the
cluster occupancies were. -/
theorem C6_extract_count (data : List ℕ) (k : ℕ) (pick : ℕ → ℕ) (hk : 1 ≤ k) :
    (extractDominantColors data k pick = [] ↔ samplesOf data = []) ∧
    (samplesOf data ≠ [] → (extractDominantColors data k pick).length = k) := by
  unfold extractDominantColors
  by_cases hp : samplesOf data = []
  · simp [hp]
  · have hif : (samplesOf data).isEmpty = false := by
      cases hs : samplesOf data with
      | nil => exact absurd hs hp
      | cons a t => rfl
    have hlen :
        (((kmeansStep (samplesOf data))^[10]
            (initCentroids (samplesOf data) k pick)).map fun c =>
          rgbToHex c.1 c.2.1 c.2.2).length = k := by
      rw [List.length_map, kmeansIter_length, initCentroids_length]
    simp only [hif, Bool.false_eq_true, if_false]
    refine ⟨⟨fun he => ?_, fun hs => absurd hs hp⟩, fun _ => hlen⟩
    exfalso
    rw [he] at hlen
    simp at hlen
    omega

/-- Claim C6 witness: a single-pixel buffer that survives the filter, k = 2. -/
theorem C6_extract_count_witness :
    1 ≤ 2 ∧
    ((extractDominantColors [100, 100, 100, 255] 2 (fun _ => 0) = [] ↔
        samplesOf [100, 100, 100, 255] = []) ∧
      (samplesOf [100, 100, 100, 255] ≠ [] →
        (extractDominantColors [100, 100, 100, 255] 2 (fun _ => 0)).length = 2)) :=
  ⟨by omega, C6_extract_count [100, 100, 100, 255] 2 (fun _ => 0) (by omega)⟩

/-- Channel ranges guaranteed by the sampling filter: every kept channel is
strictly between 30 and 250. -/
def pixInRange (p : ℕ × ℕ × ℕ) : Prop :=
  30 < p.1 ∧ p.1 < 250 ∧ 30 < p.2.1 ∧ p.2.1 < 250 ∧ 30 < p.2.2 ∧ p.2.2 < 250

/-- Centroid channel ranges maintained by the clustering loop. -/
def centInRange (c : ℚ × ℚ × ℚ) : Prop :=
  (31 ≤ c.1 ∧ c.1 ≤ 249) ∧ (31 ≤ c.2.1 ∧ c.2.1 ≤ 249) ∧
    (31 ≤ c.2.2 ∧ c.2.2 ≤ 249)

/-- Every pixel surviving the sampling filter has channels in range. -/
lemma samplesOf_inRange (data : List ℕ) :
    ∀ p ∈ samplesOf data, pixInRange p := by
  intro p hp
  unfold samplesOf at hp
  rw [List.mem_filterMap] at hp
  obtain ⟨i, _, hmatch⟩ := hp
  split at hmatch
  · split_ifs at hmatch with hcond
    obtain ⟨_, h1, h2, h3, h4, h5, h6⟩ := hcond
    obtain rfl : _ = p := Option.some_injective _ hmatch
    exact ⟨h1, h4, h2, h5, h3, h6⟩
  · exact absurd hmatch (by simp)

/-- The mean of a non-empty list of rationals lies between any bounds that
hold for every element. -/
lemma mean_bounds (l : List ℚ) (a b : ℚ) (hne : l ≠ [])
    (hb : ∀ x ∈ l, a ≤ x ∧ x ≤ b) :
    a ≤ l.sum / l.length ∧ l.sum / l.length ≤ b := by
  have hpos : 0 < (l.length : ℚ) := by
    have : 0 < l.length := List.length_pos.mpr hne
    exact_mod_cast this
  have hle : l.sum ≤ l.length • b :=
    List.sum_le_card_nsmul l b fun x hx => (hb x hx).2
  have hge : l.length • a ≤ l.sum :=
    List.card_nsmul_le_sum l a fun x hx => (hb x hx).1
  rw [nsmul_eq_mul] at hle hge
  constructor
  · rw [le_div_iff hpos]
    linarith
  · rw [div_le_iff hpos]
    linarith

/-- Integer channel bounds from the filter, as rational centroid bounds. -/
lemma pix_cast_bounds {n : ℕ} (h30 : 30 < n) (h250 : n < 250) :
    (31 : ℚ) ≤ (n : ℚ) ∧ (n : ℚ) ≤ 249 := by
  constructor
  · exact_mod_cast Nat.succ_le_of_lt h30
  · exact_mod_cast Nat.lt_succ_iff.mp h250

/-- A centroid update keeps the channels in range: either the centroid is
unchanged, or it becomes a mean of filtered pixels. -/
lemma updateCentroid_inRange (pixels : List (ℕ × ℕ × ℕ))
    (cents : List (ℚ × ℚ × ℚ)) (j : ℕ) (c : ℚ × ℚ × ℚ)
    (hpix : ∀ p ∈ pixels, pixInRange p) (hc : centInRange c) :
    centInRange (updateCentroid pixels cents j c) := by
  unfold updateCentroid
  by_cases hcl : (pixels.filter fun p => closestCluster cents p == j).isEmpty
  · simp only [hcl, if_true]
    exact hc
  · simp only [hcl, Bool.false_eq_true, if_false]
    have hne : (pixels.filter fun p => closestCluster cents p == j) ≠ [] := by
      intro he
      rw [he] at hcl
      exact hcl rfl
    have hsub : ∀ p ∈ pixels.filter fun p => closestCluster cents p == j,
        pixInRange p := fun p hp => hpix p (List.mem_filter.mp hp).1
    set cluster := pixels.filter fun p => closestCluster cents p == j with hdef
    have hlen : ∀ f : (ℕ × ℕ × ℕ) → ℚ, (cluster.map f).length = cluster.length :=
      fun f => List.length_map cluster f
    refine ⟨?_, ?_, ?_⟩
    · have := mean_bounds (cluster.map fun p => (p.1 : ℚ)) 31 249
        (by simpa using hne)
        (by
          intro x hx
          rw [List.mem_map] at hx
          obtain ⟨p, hp, rfl⟩ := hx
          obtain ⟨a1, a2, _, _, _, _⟩ := hsub p hp
          exact pix_cast_bounds a1 a2)
      rwa [hlen] at this
    · have := mean_bounds (cluster.map fun p => (p.2.1 : ℚ)) 31 249
        (by simpa using hne)
        (by
          intro x hx
          rw [List.mem_map] at hx
          obtain ⟨p, hp, rfl⟩ := hx
          obtain ⟨_, _, a1, a2, _, _⟩ := hsub p hp
          exact pix_cast_bounds a1 a2)
      rwa [hlen] at this
    · have := mean_bounds (cluster.map fun p => (p.2.2 : ℚ)) 31 249
        (by simpa using hne)
        (by
          intro x hx
          rw [List.mem_map] at hx
          obtain ⟨p, hp, rfl⟩ := hx
          obtain ⟨_, _, _, _, a1, a2⟩ := hsub p hp
          exact pix_cast_bounds a1 a2)
      rwa [hlen] at this

/-- A pair listed by enum carries an element of the underlying list. -/
lemma snd_mem_of_mem_enum {α : Type} {l : List α} {p : ℕ × α}
    (h : p ∈ l.enum) : p.2 ∈ l := by
  rw [List.mem_enum_iff_getElem?] at h
  exact List.getElem?_mem h

/-- One k-means round keeps every centroid in range. -/
lemma kmeansStep_inRange (pixels : List (ℕ × ℕ × ℕ))
    (cents : List (ℚ × ℚ × ℚ)) (hpix : ∀ p ∈ pixels, pixInRange p)
    (hc : ∀ c ∈ cents, centInRange c) :
    ∀ c ∈ kmeansStep pixels cents, centInRange c := by
  intro c hmem
  unfold kmeansStep at hmem
  rw [List.mem_map] at hmem
  obtain ⟨ic, hic, rfl⟩ := hmem
  exact updateCentroid_inRange pixels cents ic.1 ic.2 hpix
    (hc ic.2 (snd_mem_of_mem_enum hic))

/-- Any number of k-means rounds keeps every centroid in range. -/
lemma kmeansIter_inRange (pixels : List (ℕ × ℕ × ℕ))
    (hpix : ∀ p ∈ pixels, pixInRange p) (n : ℕ) :
    ∀ cents : List (ℚ × ℚ × ℚ), (∀ c ∈ cents, centInRange c) →
      ∀ c ∈ (kmeansStep pixels)^[n] cents, centInRange c := by
  induction n with
  | zero => intro cents hc; exact hc
  | succ n ih =>
    intro cents hc
    rw [Function.iterate_succ_apply]
    exact ih (kmeansStep pixels cents) (kmeansStep_inRange pixels cents hpix hc)

/-- The randomly initialized centroids are filtered pixels, hence in range. -/
lemma initCentroids_inRange (pixels : List (ℕ × ℕ × ℕ)) (k : ℕ) (pick : ℕ → ℕ)
    (hne : pixels ≠ []) (hpix : ∀ p ∈ pixels, pixInRange p) :
    ∀ c ∈ initCentroids pixels k pick, centInRange c := by
  intro c hmem
  unfold initCentroids at hmem
  rw [List.mem_map] at hmem
  obtain ⟨i, _, rfl⟩ := hmem
  have hidx : pick i % pixels.length < pixels.length :=
    Nat.mod_lt _ (List.length_pos.mpr hne)
  have hmem2 : pixels.getD (pick i % pixels.length) (0, 0, 0) ∈ pixels := by
    rw [List.getD_eq_getElem _ _ hidx]
    exact List.getElem_mem hidx
  obtain ⟨a1, a2, a3, a4, a5, a6⟩ := hpix _ hmem2
  exact ⟨pix_cast_bounds a1 a2, pix_cast_bounds a3 a4, pix_cast_bounds a5 a6⟩

/-- A rational channel in [31, 249] rounds into the byte range [0, 255]. -/
lemma jsRound_byte_range {q : ℚ} (h31 : 31 ≤ q) (h249 : q ≤ 249) :
    0 ≤ jsRound q ∧ jsRound q ≤ 255 := by
  constructor
  · apply Int.le_floor.mpr
    push_cast
    linarith
  · have hfl : ((jsRound q : ℚ)) ≤ q + 1 / 2 := Int.floor_le _
    have : ((jsRound q : ℚ)) < 250 := lt_of_le_of_lt hfl (by linarith)
    have h250 : jsRound q < 250 := by exact_mod_cast this
    omega

/-- Claim C9: every string in a result of extractDominantColors is a
well-formed 7-character '#rrggbb' hex color: initial centroids are filtered
pixels with channels in [31, 249], centroid updates are means of such pixels
(or keep the previous value), so every final centroid channel stays in
[31, 249] and rounds into the byte range rgbToHex renders as two lowercase
hex digits. -/
theorem C9_extract_wellformed (data : List ℕ) (k : ℕ) (pick : ℕ → ℕ)
    (hex : List Char) (hmem : hex ∈ extractDominantColors data k pick) :
    wellFormedHex hex := by
  unfold extractDominantColors at hmem
  by_cases hp : (samplesOf data).isEmpty
  · rw [if_pos hp] at hmem
    exact absurd hmem (List.not_mem_nil hex)
  · rw [if_neg hp] at hmem
    rw [List.mem_map] at hmem
    obtain ⟨c, hc, rfl⟩ := hmem
    have hne : samplesOf data ≠ [] := by
      intro he
      rw [he] at hp
      exact hp rfl
    have hinr : centInRange c :=
      kmeansIter_inRange (samplesOf data) (samplesOf_inRange data) 10
        (initCentroids (samplesOf data) k pick)
        (initCentroids_inRange (samplesOf data) k pick hne (samplesOf_inRange data))
        c hc
    obtain ⟨⟨r1, r2⟩, ⟨g1, g2⟩, ⟨b1, b2⟩⟩ := hinr
    obtain ⟨hr0, hr1⟩ := jsRound_byte_range r1 r2
    obtain ⟨hg0, hg1⟩ := jsRound_byte_range g1 g2
    obtain ⟨hb0, hb1⟩ := jsRound_byte_range b1 b2
    exact rgbToHex_wellFormed c.1 c.2.1 c.2.2 hr0 hr1 hg0 hg1 hb0 hb1

/-- Concrete sampling: one opaque mid-grey pixel survives the filter. -/
lemma samp_eval : samplesOf [100, 100, 100, 255] = [(100, 100, 100)] := by
  decide

/-- Concrete initialization over the single filtered pixel. -/
lemma init_eval :
    initCentroids [(100, 100, 100)] 1 (fun _ => 0) = [((100 : ℚ), 100, 100)] := by
  simp [initCentroids, List.range_succ]

/-- The singleton centroid at the only pixel is a k-means fixed point. -/
lemma step_eval :
    kmeansStep [(100, 100, 100)] [((100 : ℚ), 100, 100)] =
      [((100 : ℚ), 100, 100)] := by
  norm_num [kmeansStep, updateCentroid, closestCluster, distSq, List.enum,
    List.enumFrom]

/-- Concrete rendering of the grey centroid. -/
lemma hex_eval : rgbToHex (100 : ℚ) 100 100 = ['#', '6', '4', '6', '4', '6', '4'] := by
  have h : hexByte (100 : ℚ) = pad2 (natToHex 100) := by
    rw [show (100 : ℚ) = ((100 : ℕ) : ℚ) by norm_num, hexByte_natCast]
  rw [rgbToHex, h]
  decide

/-- Concrete end-to-end extraction on the one-pixel buffer. -/
lemma extract_single_eval :
    extractDominantColors [100, 100, 100, 255] 1 (fun _ => 0) =
      [['#', '6', '4', '6', '4', '6', '4']] := by
  unfold extractDominantColors
  rw [samp_eval]
  simp only [List.isEmpty_cons, Bool.false_eq_true, if_false]
  rw [init_eval, Function.iterate_fixed step_eval 10]
  simp [hex_eval]

/-- Claim C9 witness: the string "#646464" produced from the one-pixel buffer
is in the result and is well-formed. -/
theorem C9_extract_wellformed_witness :
    (['#', '6', '4', '6', '4', '6', '4'] ∈
        extractDominantColors [100, 100, 100, 255] 1 (fun _ => 0)) ∧
    wellFormedHex ['#', '6', '4', '6', '4', '6', '4'] := by
  have hmem : ['#', '6', '4', '6', '4', '6', '4'] ∈
      extractDominantColors [100, 100, 100, 255] 1 (fun _ => 0) := by
    rw [extract_single_eval]
    exact List.mem_singleton_self _
  exact ⟨hmem,
    C9_extract_wellformed [100, 100, 100, 255] 1 (fun _ => 0) _ hmem⟩

/-- Claim C8: for every input triple with channels in [0, 255], rgbToHsl
returns a hue in [0, 360) (strictly below 360), a saturation in [0, 100] and
a lightness in [0, 100]. -/
theorem C8_hsl_bounds (r g b : ℚ) (hr0 : 0 ≤ r) (hr1 : r ≤ 255)
    (hg0 : 0 ≤ g) (hg1 : g ≤ 255) (hb0 : 0 ≤ b) (hb1 : b ≤ 255) :
    0 ≤ (rgbToHsl r g b).1 ∧ (rgbToHsl r g b).1 < 360 ∧
    0 ≤ (rgbToHsl r g b).2.1 ∧ (rgbToHsl r g b).2.1 ≤ 100 ∧
    0 ≤ (rgbToHsl r g b).2.2 ∧ (rgbToHsl r g b).2.2 ≤ 100 := by
  have h255 : (0 : ℚ) < 255 := by norm_num
  simp only [rgbToHsl]
  set r' := r / 255 with hr'
  set g' := g / 255 with hg'
  set b' := b / 255 with hb'
  have hr01 : 0 ≤ r' ∧ r' ≤ 1 :=
    ⟨div_nonneg hr0 h255.le, (div_le_one h255).mpr hr1⟩
  have hg01 : 0 ≤ g' ∧ g' ≤ 1 :=
    ⟨div_nonneg hg0 h255.le, (div_le_one h255).mpr hg1⟩
  have hb01 : 0 ≤ b' ∧ b' ≤ 1 :=
    ⟨div_nonneg hb0 h255.le, (div_le_one h255).mpr hb1⟩
  set M := max r' (max g' b') with hM
  set m := min r' (min g' b') with hm
  have hrM : r' ≤ M := le_max_left _ _
  have hgM : g' ≤ M := le_trans (le_max_left _ _) (le_max_right _ _)
  have hbM : b' ≤ M := le_trans (le_max_right _ _) (le_max_right _ _)
  have hmr : m ≤ r' := min_le_left _ _
  have hmg : m ≤ g' := le_trans (min_le_right _ _) (min_le_left _ _)
  have hmb : m ≤ b' := le_trans (min_le_right _ _) (min_le_right _ _)
  have hM1 : M ≤ 1 := max_le hr01.2 (max_le hg01.2 hb01.2)
  have hm0 : 0 ≤ m := le_min hr01.1 (le_min hg01.1 hb01.1)
  have hmM : m ≤ M := le_trans hmr hrM
  by_cases heq : M = m
  · simp only [if_pos heq]
    refine ⟨by norm_num, by norm_num, by norm_num, by norm_num, ?_, ?_⟩
    · show 0 ≤ (M + m) / 2 * 100
      linarith
    · show (M + m) / 2 * 100 ≤ 100
      linarith
  · simp only [if_neg heq]
    have hlt : m < M := lt_of_le_of_ne hmM fun h => heq h.symm
    have hd : 0 < M - m := by linarith
    have hh06 : 0 ≤ (if M = r' then (g' - b') / (M - m) + (if g' < b' then 6 else 0)
          else if M = g' then (b' - r') / (M - m) + 2
          else (r' - g') / (M - m) + 4) ∧
        (if M = r' then (g' - b') / (M - m) + (if g' < b' then 6 else 0)
          else if M = g' then (b' - r') / (M - m) + 2
          else (r' - g') / (M - m) + 4) < 6 := by
      split_ifs with hmxr hgb hmxg
      · have hq1 : -1 ≤ (g' - b') / (M - m) := by
          rw [le_div_iff hd]
          linarith
        have hq2 : (g' - b') / (M - m) < 0 :=
          div_neg_of_neg_of_pos (by linarith) hd
        constructor <;> linarith
      · have hq1 : 0 ≤ (g' - b') / (M - m) :=
          div_nonneg (by linarith [not_lt.mp hgb]) hd.le
        have hq2 : (g' - b') / (M - m) ≤ 1 := by
          rw [div_le_one hd]
          linarith
        constructor <;> linarith
      · have hq1 : -1 ≤ (b' - r') / (M - m) := by
          rw [le_div_iff hd]
          linarith
        have hq2 : (b' - r') / (M - m) ≤ 1 := by
          rw [div_le_one hd]
          linarith
        constructor <;> linarith
      · have hq1 : -1 ≤ (r' - g') / (M - m) := by
          rw [le_div_iff hd]
          linarith
        have hq2 : (r' - g') / (M - m) ≤ 1 := by
          rw [div_le_one hd]
          linarith
        constructor <;> linarith
    have hs01 : 0 ≤ (if (M + m) / 2 > 1 / 2 then (M - m) / (2 - M - m)
          else (M - m) / (M + m)) ∧
        (if (M + m) / 2 > 1 / 2 then (M - m) / (2 - M - m)
          else (M - m) / (M + m)) ≤ 1 := by
      split_ifs with hl
      · have hden : 0 < 2 - M - m := by
          have hm1 : m < 1 := lt_of_lt_of_le hlt hM1
          linarith
        constructor
        · exact div_nonneg (by linarith) hden.le
        · rw [div_le_one hden]
          linarith
      · have hM0 : 0 < M := lt_of_le_of_lt hm0 hlt
        have hden : 0 < M + m := by linarith
        constructor
        · exact div_nonneg (by linarith) hden.le
        · rw [div_le_one hden]
          linarith
    refine ⟨?_, ?_, ?_, ?_, ?_, ?_⟩
    · show 0 ≤ _ / 6 * 360
      linarith [hh06.1]
    · show _ / 6 * 360 < 360
      linarith [hh06.2]
    · show 0 ≤ _ * 100
      linarith [hs01.1]
    · show _ * 100 ≤ 100
      linarith [hs01.2]
    · show 0 ≤ (M + m) / 2 * 100
      linarith
    · show (M + m) / 2 * 100 ≤ 100
      linarith

/-- Claim C8 witness at the skin-like triple (200, 150, 120). -/
theorem C8_hsl_bounds_witness :
    ((0 : ℚ) ≤ 200 ∧ (200 : ℚ) ≤ 255 ∧ (0 : ℚ) ≤ 150 ∧ (150 : ℚ) ≤ 255 ∧
      (0 : ℚ) ≤ 120 ∧ (120 : ℚ) ≤ 255) ∧
    (0 ≤ (rgbToHsl 200 150 120).1 ∧ (rgbToHsl 200 150 120).1 < 360 ∧
     0 ≤ (rgbToHsl 200 150 120).2.1 ∧ (rgbToHsl 200 150 120).2.1 ≤ 100 ∧
     0 ≤ (rgbToHsl 200 150 120).2.2 ∧ (rgbToHsl 200 150 120).2.2 ≤ 100) :=
  ⟨⟨by norm_num, by norm_num, by norm_num, by norm_num, by norm_num,
     by norm_num⟩,
    C8_hsl_bounds 200 150 120 (by norm_num) (by norm_num) (by norm_num)
      (by norm_num) (by norm_num) (by norm_num)⟩
